import Mathlib

/-!
Shallow embedding of the Rizzler compiler front end (src/parse.py), a
recursive-descent parser that simultaneously validates a small imperative
language, tracks semantic state (declared variables, declared labels,
goto-referenced labels) and emits C code fragments through an emitter.

The parser (src/parse.py) is embedded faithfully: each grammar-production
method becomes a Lean function on an explicit `ParserState`, Python loops
become fuel-indexed recursion, and `Parser.abort` (which calls `sys.exit`)
becomes an `Except` error carrying the diagnostic and the parser state at
the moment of abort, so that mutations performed before an abort stay
observable, exactly as the in-memory Python object is mutated before
`sys.exit` runs.
-/

namespace Rizzler

/-- Token kinds, from the TokenType enumeration used by src/parse.py
(EOF, NEWLINE, NUMBER, IDENT, STRING, the statement keywords and the
operator kinds it dispatches on). -/
inductive TokenType where
  | EOF | NEWLINE | NUMBER | IDENT | STRING
  | LABEL | GOTO | YAP | NOCAP | PREACH
  | IF | THEN | ENDIF
  | COOKING | RUNITBACK | COOKED
  | EQ | EQEQ | NOTEQ | LT | LTEQ | GT | GTEQ
  | PLUS | MINUS | ASTERISK | SLASH
deriving DecidableEq, Repr

/-- A token: a kind paired with its literal lexeme text. -/
structure Token where
  kind : TokenType
  text : String
deriving DecidableEq, Repr

/-- The lexer returns an EOF token forever once the input is exhausted. -/
def eofToken : Token := { kind := TokenType.EOF, text := "" }

/-- Modelled from the spec: the Emitter collaborator (emit.py is not under
src/). It accumulates two append-only regions, header and body; the order
of appends within each region is preserved, and the final output is the
header region's concatenation followed by the body region's. We keep each
region as the list of appended fragments (line-appends carry their
trailing newline) so emission order is directly visible. -/
structure Emitter where
  header : List String
  code : List String
deriving DecidableEq, Repr

/-- Modelled from the spec: append a fragment to the body region. -/
def Emitter.emit (e : Emitter) (s : String) : Emitter :=
  { e with code := e.code ++ [s] }

/-- Modelled from the spec: append a fragment plus newline to the body region. -/
def Emitter.emitLine (e : Emitter) (s : String) : Emitter :=
  { e with code := e.code ++ [s ++ "\n"] }

/-- Modelled from the spec: append a fragment plus newline to the header region. -/
def Emitter.headerLine (e : Emitter) (s : String) : Emitter :=
  { e with header := e.header ++ [s ++ "\n"] }

/-- Modelled from the spec: final output, header region then body region. -/
def Emitter.output (e : Emitter) : String :=
  String.join e.header ++ String.join e.code

/-- The parser's whole mutable state: the three semantic string sets, the
two-token lookahead window plus the not-yet-pulled remainder of the token
stream, and the emitter it writes to.  Python's sets are modelled as
duplicate-free-by-construction lists (insertion appends only when the
element is absent, membership is list membership). -/
structure ParserState where
  symbols : List String
  labelsDeclared : List String
  labelsGotoed : List String
  curToken : Token
  peekToken : Token
  rest : List Token
  emitter : Emitter
deriving DecidableEq, Repr

/-- Python set `add`: insert only if absent. -/
def addStr (l : List String) (s : String) : List String :=
  if s ∈ l then l else l ++ [s]

/-- Parser.nextToken: shift peek into current and pull the next token; the
lexer hands back EOF forever at end of stream. -/
def ParserState.nextToken (p : ParserState) : ParserState :=
  { p with curToken := p.peekToken,
           peekToken := p.rest.headD eofToken,
           rest := p.rest.tail }

/-- Parser.checkToken. -/
def ParserState.checkToken (p : ParserState) (kind : TokenType) : Bool :=
  p.curToken.kind = kind

/-- Parser.checkPeek. -/
def ParserState.checkPeek (p : ParserState) (kind : TokenType) : Bool :=
  p.peekToken.kind = kind

def ParserState.emit (p : ParserState) (s : String) : ParserState :=
  { p with emitter := p.emitter.emit s }

def ParserState.emitLine (p : ParserState) (s : String) : ParserState :=
  { p with emitter := p.emitter.emitLine s }

def ParserState.headerLine (p : ParserState) (s : String) : ParserState :=
  { p with emitter := p.emitter.headerLine s }

/-- The diagnostics that route through Parser.abort, one constructor per
abort site, plus the token-mismatch diagnostic of Parser.match; `outOfFuel`
is the artifact of bounding Python's loops with fuel and corresponds to no
source behaviour. -/
inductive CompileError where
  | expected (expected got : TokenType)
  | invalidStatement (text : String) (kind : TokenType)
  | labelExists (name : String)
  | undeclaredLabel (name : String)
  | refBeforeAssign (name : String)
  | expectedComparison (text : String)
  | unexpectedToken (text : String)
  | outOfFuel
deriving DecidableEq, Repr

/-- The literal name used in Parser.match diagnostics (TokenType.name). -/
def TokenType.name : TokenType → String
  | .EOF => "EOF" | .NEWLINE => "NEWLINE" | .NUMBER => "NUMBER"
  | .IDENT => "IDENT" | .STRING => "STRING"
  | .LABEL => "LABEL" | .GOTO => "GOTO" | .YAP => "YAP"
  | .NOCAP => "NOCAP" | .PREACH => "PREACH"
  | .IF => "IF" | .THEN => "THEN" | .ENDIF => "ENDIF"
  | .COOKING => "COOKING" | .RUNITBACK => "RUNITBACK" | .COOKED => "COOKED"
  | .EQ => "EQ" | .EQEQ => "EQEQ" | .NOTEQ => "NOTEQ"
  | .LT => "LT" | .LTEQ => "LTEQ" | .GT => "GT" | .GTEQ => "GTEQ"
  | .PLUS => "PLUS" | .MINUS => "MINUS"
  | .ASTERISK => "ASTERISK" | .SLASH => "SLASH"

/-- The exact diagnostic text each error prints, "[Error] " prefix included,
as produced by Parser.abort / sys.exit in src/parse.py. -/
def CompileError.render : CompileError → String
  | .expected e g => "[Error] Expected " ++ e.name ++ ", got " ++ g.name
  | .invalidStatement t k => "[Error] Invalid statement at " ++ t ++ " (" ++ k.name ++ ")"
  | .labelExists n => "[Error] Label already exists: " ++ n
  | .undeclaredLabel n => "[Error] Attempting to GOTO to undeclared label: " ++ n
  | .refBeforeAssign n => "[Error] Referencing variable before assignment: " ++ n
  | .expectedComparison t => "[Error] Expected comparison operator at: " ++ t
  | .unexpectedToken t => "[Error] Unpexpected token at " ++ t
  | .outOfFuel => "[Error] out of fuel"

/-- Result of a parsing step: either the updated state, or the abort
diagnostic together with the state at the moment of abort. -/
abbrev PRes := Except (CompileError × ParserState) ParserState

/-- Parser.match: abort (without advancing) if the current token is not of
the given kind, otherwise advance. -/
def matchTok (p : ParserState) (kind : TokenType) : PRes :=
  if p.curToken.kind = kind then .ok p.nextToken
  else .error (.expected kind p.curToken.kind, p)

/-- Parser.isComparisonOperator. -/
def isComparisonOperator (p : ParserState) : Bool :=
  p.checkToken .GT || p.checkToken .GTEQ || p.checkToken .LT
    || p.checkToken .LTEQ || p.checkToken .EQEQ || p.checkToken .NOTEQ

/-- The newline-skipping loops (in program and in nl): advance while the
current token is a newline. -/
def skipNewlines : Nat → ParserState → ParserState
  | 0, p => p
  | fuel + 1, p =>
    if p.curToken.kind = .NEWLINE then skipNewlines fuel p.nextToken else p

/-- Parser.primary: number or declared identifier, emitted verbatim;
an undeclared identifier aborts, anything else is a syntax error. -/
def primary (p : ParserState) : PRes :=
  if p.curToken.kind = .NUMBER then
    .ok ((p.emit p.curToken.text).nextToken)
  else if p.curToken.kind = .IDENT then
    if p.curToken.text ∈ p.symbols then
      .ok ((p.emit p.curToken.text).nextToken)
    else
      .error (.refBeforeAssign p.curToken.text, p)
  else
    .error (.unexpectedToken p.curToken.text, p)

/-- Parser.unary: at most one optional leading sign, then a primary. -/
def unary (p : ParserState) : PRes :=
  if p.curToken.kind = .PLUS ∨ p.curToken.kind = .MINUS then
    primary ((p.emit p.curToken.text).nextToken)
  else
    primary p

/-- The loop of Parser.term over asterisk/slash. -/
def termLoop : Nat → ParserState → PRes
  | 0, p => .error (.outOfFuel, p)
  | fuel + 1, p =>
    if p.curToken.kind = .ASTERISK ∨ p.curToken.kind = .SLASH then do
      termLoop fuel (← unary ((p.emit p.curToken.text).nextToken))
    else
      .ok p

/-- Parser.term: a unary followed by zero or more asterisk/slash unaries. -/
def term (fuel : Nat) (p : ParserState) : PRes := do
  termLoop fuel (← unary p)

/-- The loop of Parser.expression over plus/minus. -/
def expressionLoop : Nat → ParserState → PRes
  | 0, p => .error (.outOfFuel, p)
  | fuel + 1, p =>
    if p.curToken.kind = .PLUS ∨ p.curToken.kind = .MINUS then do
      expressionLoop fuel (← term fuel ((p.emit p.curToken.text).nextToken))
    else
      .ok p

/-- Parser.expression: a term followed by zero or more plus/minus terms. -/
def expression (fuel : Nat) (p : ParserState) : PRes := do
  expressionLoop fuel (← term fuel p)

/-- The trailing loop of Parser.comparison over further operator+expression
pairs. -/
def comparisonLoop : Nat → ParserState → PRes
  | 0, p => .error (.outOfFuel, p)
  | fuel + 1, p =>
    if isComparisonOperator p then do
      comparisonLoop fuel (← expression fuel ((p.emit p.curToken.text).nextToken))
    else
      .ok p

/-- Parser.comparison: an expression, then a mandatory comparison operator
and expression (aborting otherwise), then zero or more further pairs. -/
def comparison (fuel : Nat) (p : ParserState) : PRes := do
  let p1 ← expression fuel p
  if isComparisonOperator p1 then do
    comparisonLoop fuel (← expression fuel ((p1.emit p1.curToken.text).nextToken))
  else
    .error (.expectedComparison p1.curToken.text, p1)

/-- Parser.nl: require one newline, then swallow any further newlines. -/
def nl (fuel : Nat) (p : ParserState) : PRes := do
  .ok (skipNewlines fuel (← matchTok p .NEWLINE))

mutual

/-- Parser.statement: single-token dispatch on the current token's kind,
with the semantic actions and emissions of each branch of src/parse.py
lines 77-182, and the uniform trailing newline production. -/
def statement : Nat → ParserState → PRes
  | 0, p => .error (.outOfFuel, p)
  | fuel + 1, p =>
    (if p.curToken.kind = .YAP then
        if p.nextToken.curToken.kind = .STRING then
          .ok ((p.nextToken.emitLine ("printf(\"" ++ p.nextToken.curToken.text ++ "\\n\");")).nextToken)
        else do
          let p2 ← expression fuel (p.nextToken.emit "printf(\"%.2f\\n\", (float)(")
          .ok (p2.emitLine "));")
      else if p.curToken.kind = .IF then do
        let p1 ← comparison fuel (p.nextToken.emit "if(")
        let p2 ← nl fuel (← matchTok p1 .THEN)
        let p3 ← statementsUntil fuel .ENDIF (p2.emitLine ") \x7b")
        let p4 ← matchTok p3 .ENDIF
        .ok (p4.emitLine "\x7d")
      else if p.curToken.kind = .COOKING then do
        let p1 ← comparison fuel (p.nextToken.emit "while(")
        let p2 ← nl fuel (← matchTok p1 .RUNITBACK)
        let p3 ← statementsUntil fuel .COOKED (p2.emitLine ") \x7b")
        let p4 ← matchTok p3 .COOKED
        .ok (p4.emitLine "\x7d")
      else if p.curToken.kind = .LABEL then
        if p.nextToken.curToken.text ∈ p.nextToken.labelsDeclared then
          .error (.labelExists p.nextToken.curToken.text, p.nextToken)
        else
          matchTok (({ p.nextToken with
              labelsDeclared := addStr p.nextToken.labelsDeclared p.nextToken.curToken.text
            }).emitLine (p.nextToken.curToken.text ++ ":")) .IDENT
      else if p.curToken.kind = .GOTO then
        matchTok (({ p.nextToken with
            labelsGotoed := addStr p.nextToken.labelsGotoed p.nextToken.curToken.text
          }).emitLine ("goto" ++ p.nextToken.curToken.text ++ ";")) .IDENT
      else if p.curToken.kind = .NOCAP then do
        let p3 ← matchTok ((if p.nextToken.curToken.text ∈ p.nextToken.symbols then p.nextToken
          else
            { p.nextToken with
              symbols := p.nextToken.symbols ++ [p.nextToken.curToken.text],
              emitter := p.nextToken.emitter.headerLine
                ("float " ++ p.nextToken.curToken.text ++ ";")
            }).emit (p.nextToken.curToken.text ++ " = ")) .IDENT
        let p4 ← matchTok p3 .EQ
        let p5 ← expression fuel p4
        .ok (p5.emitLine ";")
      else if p.curToken.kind = .PREACH then
        matchTok ((if p.nextToken.curToken.text ∈ p.nextToken.symbols then p.nextToken
          else
            { p.nextToken with
              symbols := p.nextToken.symbols ++ [p.nextToken.curToken.text],
              emitter := p.nextToken.emitter.headerLine
                ("float " ++ p.nextToken.curToken.text ++ ";")
            }).emitLine ("if(0 == scanf(\"%f\", &" ++ p.nextToken.curToken.text ++ ")) \x7b")
          |>.emitLine (p.nextToken.curToken.text ++ " = 0;")
          |>.emit "scanf(\"%"
          |>.emitLine "*s\");"
          |>.emitLine "\x7d") .IDENT
      else
        .error (.invalidStatement p.curToken.text p.curToken.kind, p)) >>=
    nl fuel

/-- The statement loops: in program (until EOF) and in the if and while
bodies (until ENDIF, until COOKED). -/
def statementsUntil : Nat → TokenType → ParserState → PRes
  | 0, _, p => .error (.outOfFuel, p)
  | fuel + 1, stop, p =>
    if p.curToken.kind = stop then .ok p
    else do
      statementsUntil fuel stop (← statement fuel p)

end

/-- The fixed prologue of Parser.program: the stdio include and the opening
of main, both to the header region. -/
def prologue (p : ParserState) : ParserState :=
  (p.headerLine "#include <stdio.h>").headerLine "int main(void) \x7b"

/-- The end-of-program label validation of Parser.program: abort on the
first goto-referenced label (in accumulation order) that was never
declared. -/
def checkLabels (p : ParserState) : PRes :=
  match p.labelsGotoed.find? (fun l => decide (l ∉ p.labelsDeclared)) with
  | some l => .error (.undeclaredLabel l, p)
  | none => .ok p

/-- Parser.program: prologue, skip leading newlines, parse statements until
EOF, emit the epilogue, then run the deferred label validation. -/
def program (fuel : Nat) (p : ParserState) : PRes := do
  let p2 := skipNewlines fuel (prologue p)
  let p3 ← statementsUntil fuel .EOF p2
  checkLabels ((p3.emitLine "return 0;").emitLine "\x7d")

/-- Parser.__init__: fresh semantic sets, and two initial nextToken calls,
so current and peek hold the first two tokens (EOF-padded). -/
def initParser (toks : List Token) : ParserState :=
  { symbols := [], labelsDeclared := [], labelsGotoed := [],
    curToken := toks.headD eofToken,
    peekToken := (toks.drop 1).headD eofToken,
    rest := toks.drop 2,
    emitter := { header := [], code := [] } }

end Rizzler

namespace Rizzler

/-! Concrete token streams used by the claims below. -/

/-- Build a token. -/
def tk (k : TokenType) (t : String) : Token := { kind := k, text := t }

/-- Tokens of the minimal program: one assignment of 3 + 4 * 2 to x, then a
print of x, each statement followed by a newline, then end-of-file. -/
def c1toks : List Token :=
  [tk .NOCAP "NOCAP", tk .IDENT "x", tk .EQ "=", tk .NUMBER "3", tk .PLUS "+",
   tk .NUMBER "4", tk .ASTERISK "*", tk .NUMBER "2", tk .NEWLINE "\n",
   tk .YAP "YAP", tk .IDENT "x", tk .NEWLINE "\n"]

/-- Tokens of a blank program: newlines only, then end-of-file. -/
def c7toks : List Token :=
  [tk .NEWLINE "\n", tk .NEWLINE "\n", tk .NEWLINE "\n"]

/-- Tokens of a program with a single empty-bodied if statement. -/
def c8toks : List Token :=
  [tk .IF "IF", tk .NUMBER "1", tk .LT "<", tk .NUMBER "2", tk .THEN "THEN",
   tk .NEWLINE "\n", tk .ENDIF "ENDIF", tk .NEWLINE "\n"]

/-- Tokens of a valid program declaring label foo and jumping to it. -/
def c3toks : List Token :=
  [tk .LABEL "LABEL", tk .IDENT "foo", tk .NEWLINE "\n",
   tk .GOTO "GOTO", tk .IDENT "foo", tk .NEWLINE "\n"]

/-- Claim C1: compiling the minimal program (assignment of 3 + 4 * 2 to x,
then a print of x) succeeds; the header region is the fixed prologue plus a
floating-point declaration of x, and the body region is the assignment to x
whose right-hand side emits 3, +, 4, *, 2 verbatim in source order,
followed by the formatted floating-point print of x and the epilogue. -/
theorem c1_roundtrip_minimal_program :
    ∃ p', program 50 (initParser c1toks) = .ok p' ∧
      p'.emitter.header = ["#include <stdio.h>\n", "int main(void) \x7b\n", "float x;\n"] ∧
      p'.emitter.code = ["x = ", "3", "+", "4", "*", "2", ";\n",
        "printf(\"%.2f\\n\", (float)(", "x", "));\n", "return 0;\n", "\x7d\n"] :=
  ⟨_, rfl, rfl, rfl⟩

/-- Claim C7: compiling a token stream of newlines only succeeds; the header
region is exactly the fixed prologue (stdio include and the opening of
main) and the body region is exactly the return statement and the closing
brace. -/
theorem c7_blank_program :
    ∃ p', program 50 (initParser c7toks) = .ok p' ∧
      p'.emitter.header = ["#include <stdio.h>\n", "int main(void) \x7b\n"] ∧
      p'.emitter.code = ["return 0;\n", "\x7d\n"] :=
  ⟨_, rfl, rfl, rfl⟩

/-- Claim C8: an if statement with an empty body (END IF right after the
condition, THEN and its newline) compiles successfully and emits a
syntactically valid empty conditional block: the conditional opener, the
comparison, the block opener, and immediately the block closer with no
statement emissions in between. -/
theorem c8_empty_if_block :
    ∃ p', program 50 (initParser c8toks) = .ok p' ∧
      p'.emitter.header = ["#include <stdio.h>\n", "int main(void) \x7b\n"] ∧
      p'.emitter.code = ["if(", "1", "<", "2", ") \x7b\n", "\x7d\n", "return 0;\n", "\x7d\n"] :=
  ⟨_, rfl, rfl, rfl⟩

/-- Claim C3 (code bug): on the valid program declaring label foo and
jumping to it, compilation succeeds but the goto statement's fragment is
the keyword concatenated directly with the label, "gotofoo;", with no
lexical separation, so the assembled output is not a well-formed jump;
in particular the well-formed fragment "goto foo;" is nowhere in the body
region. -/
theorem c3_goto_fragment_lacks_separator :
    ∃ p', program 50 (initParser c3toks) = .ok p' ∧
      p'.emitter.code = ["foo:\n", "gotofoo;\n", "return 0;\n", "\x7d\n"] ∧
      "goto foo;\n" ∉ p'.emitter.code :=
  ⟨_, rfl, rfl, by decide⟩

end Rizzler

namespace Rizzler

/-- Bind on an ok parser result steps into the continuation. -/
@[simp] theorem ok_bind (a : ParserState) (f : ParserState → PRes) :
    (Except.ok a : PRes) >>= f = f a := rfl

/-- Bind on an aborted parser result keeps the abort. -/
@[simp] theorem error_bind (e : CompileError × ParserState) (f : ParserState → PRes) :
    (Except.error e : PRes) >>= f = Except.error e := rfl

/-- Claim C4: in primary, an identifier whose text is not in the symbol set
aborts at once with the use-before-assignment error, emitting nothing (the
abort state is the input state unchanged); an identifier whose text is in
the symbol set is emitted verbatim to the body region and parsing
continues, leaving the header region and the symbol set untouched. -/
theorem c4_identifier_read_gate (p : ParserState)
    (hk : p.curToken.kind = .IDENT) :
    (p.curToken.text ∉ p.symbols →
      primary p = .error (.refBeforeAssign p.curToken.text, p)) ∧
    (p.curToken.text ∈ p.symbols →
      ∃ p', primary p = .ok p' ∧
        p'.emitter.code = p.emitter.code ++ [p.curToken.text] ∧
        p'.emitter.header = p.emitter.header ∧
        p'.symbols = p.symbols) := by
  constructor
  · intro hmem
    simp [primary, hk, hmem]
  · intro hmem
    refine ⟨(p.emit p.curToken.text).nextToken, ?_, ?_, rfl, rfl⟩
    · simp [primary, hk, hmem]
    · simp [ParserState.emit, ParserState.nextToken, Emitter.emit]

/-- State with the identifier y current and only x assigned. -/
def c4wp : ParserState :=
  { initParser [tk .IDENT "y", tk .NEWLINE "\n"] with symbols := ["x"] }

/-- Witness for C4 at a concrete state: identifier y read while only x is
in the symbol set. -/
theorem c4_identifier_read_gate_witness :
    (c4wp.curToken.text ∉ c4wp.symbols →
      primary c4wp = .error (.refBeforeAssign c4wp.curToken.text, c4wp)) ∧
    (c4wp.curToken.text ∈ c4wp.symbols →
      ∃ p', primary c4wp = .ok p' ∧
        p'.emitter.code = c4wp.emitter.code ++ [c4wp.curToken.text] ∧
        p'.emitter.header = c4wp.emitter.header ∧
        p'.symbols = c4wp.symbols) :=
  c4_identifier_read_gate c4wp rfl

/-- Chained-comparison tokens a < b == c (then a newline). -/
def c6toks : List Token :=
  [tk .IDENT "a", tk .LT "<", tk .IDENT "b", tk .EQEQ "==", tk .IDENT "c",
   tk .NEWLINE "\n"]

/-- Parser state over c6toks in which a, b and c are already assigned. -/
def c6st : ParserState := { initParser c6toks with symbols := ["a", "b", "c"] }

/-- Claim C6: the comparison production demands at least one comparison
operator — whenever the leading expression parses and the next token is
not a comparison operator, comparison aborts with the
expected-comparison-operator error at that token; and the chained
comparison a < b == c parses successfully, emitting the three expressions
and the two operator lexemes verbatim in source order with nothing else. -/
theorem c6_comparison_requires_operator_and_chains :
    (∀ fuel p p1, expression fuel p = .ok p1 → isComparisonOperator p1 = false →
      comparison fuel p = .error (.expectedComparison p1.curToken.text, p1)) ∧
    (∃ p', comparison 50 c6st = .ok p' ∧
      p'.emitter.code = ["a", "<", "b", "==", "c"]) := by
  constructor
  · intro fuel p p1 h1 h2
    simp [comparison, h1, h2]
  · exact ⟨_, rfl, rfl⟩

/-- State whose next tokens are the bare expression 1 then a newline. -/
def c6wp : ParserState := initParser [tk .NUMBER "1", tk .NEWLINE "\n"]

/-- Witness for C6 at a concrete state: a bare expression followed by a
newline is rejected with the expected-comparison-operator error. -/
theorem c6_comparison_requires_operator_witness :
    ∃ p1, expression 50 c6wp = .ok p1 ∧
      comparison 50 c6wp = .error (.expectedComparison p1.curToken.text, p1) :=
  ⟨_, rfl, c6_comparison_requires_operator_and_chains.1 50 c6wp _ rfl rfl⟩

end Rizzler

namespace Rizzler

/-- Skipping newlines moves only the cursor: symbols are untouched. -/
@[simp] theorem skipNewlines_symbols (fuel : Nat) (p : ParserState) :
    (skipNewlines fuel p).symbols = p.symbols := by
  induction fuel generalizing p with
  | zero => rfl
  | succ n ih =>
    simp only [skipNewlines]
    split
    · rw [ih]; rfl
    · rfl

/-- Skipping newlines moves only the cursor: declared labels are untouched. -/
@[simp] theorem skipNewlines_labelsDeclared (fuel : Nat) (p : ParserState) :
    (skipNewlines fuel p).labelsDeclared = p.labelsDeclared := by
  induction fuel generalizing p with
  | zero => rfl
  | succ n ih =>
    simp only [skipNewlines]
    split
    · rw [ih]; rfl
    · rfl

/-- Skipping newlines moves only the cursor: gotoed labels are untouched. -/
@[simp] theorem skipNewlines_labelsGotoed (fuel : Nat) (p : ParserState) :
    (skipNewlines fuel p).labelsGotoed = p.labelsGotoed := by
  induction fuel generalizing p with
  | zero => rfl
  | succ n ih =>
    simp only [skipNewlines]
    split
    · rw [ih]; rfl
    · rfl

/-- Skipping newlines moves only the cursor: the emitter is untouched. -/
@[simp] theorem skipNewlines_emitter (fuel : Nat) (p : ParserState) :
    (skipNewlines fuel p).emitter = p.emitter := by
  induction fuel generalizing p with
  | zero => rfl
  | succ n ih =>
    simp only [skipNewlines]
    split
    · rw [ih]; rfl
    · rfl

/-- Claim C5: a label declaration whose identifier text is already in the
declared-label set aborts with the duplicate-label error and the abort
state still carries the unchanged declared-label set; a declaration with a
fresh name (followed by the identifier and a newline) succeeds, appends
the name to the declared-label set and emits the label marker built from
the identifier text into the body region, leaving the header untouched. -/
theorem c5_label_declaration (fuel : Nat) (p : ParserState)
    (hk : p.curToken.kind = .LABEL) :
    (p.peekToken.text ∈ p.labelsDeclared →
      statement (fuel + 1) p = .error (.labelExists p.peekToken.text, p.nextToken) ∧
      p.nextToken.labelsDeclared = p.labelsDeclared) ∧
    (p.peekToken.text ∉ p.labelsDeclared → p.peekToken.kind = .IDENT →
      (p.rest.headD eofToken).kind = .NEWLINE →
      ∃ p', statement (fuel + 1) p = .ok p' ∧
        p'.labelsDeclared = p.labelsDeclared ++ [p.peekToken.text] ∧
        p'.emitter.code = p.emitter.code ++ [p.peekToken.text ++ ":" ++ "\n"] ∧
        p'.emitter.header = p.emitter.header) := by
  constructor
  · intro hdup
    constructor
    · simp [statement, hk, ParserState.nextToken, hdup]
    · rfl
  · intro hdup hid hn
    simp only [List.headD_eq_head?_getD] at hn
    simp [statement, hk, hdup, hid, hn, addStr, matchTok, nl,
      ParserState.nextToken, ParserState.emitLine, Emitter.emitLine]

end Rizzler

namespace Rizzler

/-- State at a label declaration of the fresh label L, newline following. -/
def c5wp : ParserState :=
  initParser [tk .LABEL "LABEL", tk .IDENT "L", tk .NEWLINE "\n"]

/-- Witness for C5 at a concrete state: declaring the fresh label L. -/
theorem c5_label_declaration_witness :
    (c5wp.peekToken.text ∈ c5wp.labelsDeclared →
      statement 11 c5wp = .error (.labelExists c5wp.peekToken.text, c5wp.nextToken) ∧
      c5wp.nextToken.labelsDeclared = c5wp.labelsDeclared) ∧
    (c5wp.peekToken.text ∉ c5wp.labelsDeclared → c5wp.peekToken.kind = .IDENT →
      (c5wp.rest.headD eofToken).kind = .NEWLINE →
      ∃ p', statement 11 c5wp = .ok p' ∧
        p'.labelsDeclared = c5wp.labelsDeclared ++ [c5wp.peekToken.text] ∧
        p'.emitter.code = c5wp.emitter.code ++ [c5wp.peekToken.text ++ ":" ++ "\n"] ∧
        p'.emitter.header = c5wp.emitter.header) :=
  c5_label_declaration 10 c5wp rfl

/-- Claim C10: when the token after the GOTO keyword (respectively after
the LABEL keyword, for a not-yet-declared name) is not an identifier, the
statement still aborts with the expected-IDENT syntax error, but the abort
state already carries the inserted label name in the goto-referenced set
(respectively in the declared-label set) and the emitted jump fragment
(respectively label marker) in the body region; and on the LABEL path the
duplicate check still fires first when the text is already declared. -/
theorem c10_goto_label_mutate_before_syntax_error (fuel : Nat) (p : ParserState)
    (hpk : p.peekToken.kind ≠ .IDENT) :
    (p.curToken.kind = .GOTO →
      ∃ pe, statement (fuel + 1) p = .error (.expected .IDENT p.peekToken.kind, pe) ∧
        p.peekToken.text ∈ pe.labelsGotoed ∧
        ("goto" ++ p.peekToken.text ++ ";" ++ "\n") ∈ pe.emitter.code) ∧
    (p.curToken.kind = .LABEL → p.peekToken.text ∉ p.labelsDeclared →
      ∃ pe, statement (fuel + 1) p = .error (.expected .IDENT p.peekToken.kind, pe) ∧
        p.peekToken.text ∈ pe.labelsDeclared ∧
        (p.peekToken.text ++ ":" ++ "\n") ∈ pe.emitter.code) ∧
    (p.curToken.kind = .LABEL → p.peekToken.text ∈ p.labelsDeclared →
      statement (fuel + 1) p = .error (.labelExists p.peekToken.text, p.nextToken)) := by
  refine ⟨?_, ?_, ?_⟩
  · intro hk
    simp [statement, hk, hpk, addStr, matchTok,
      ParserState.nextToken, ParserState.emitLine, Emitter.emitLine]
    split <;> simp_all
  · intro hk hdup
    simp [statement, hk, hpk, hdup, addStr, matchTok,
      ParserState.nextToken, ParserState.emitLine, Emitter.emitLine]
  · intro hk hdup
    simp [statement, hk, hdup, ParserState.nextToken]

/-- State at a GOTO whose operand is the number 5 rather than an identifier. -/
def c10wp : ParserState :=
  initParser [tk .GOTO "GOTO", tk .NUMBER "5", tk .NEWLINE "\n"]

/-- Witness for C10 at a concrete state: GOTO followed by a number. -/
theorem c10_goto_label_mutate_witness :
    ((c10wp.curToken.kind = .GOTO →
      ∃ pe, statement 8 c10wp = .error (.expected .IDENT c10wp.peekToken.kind, pe) ∧
        c10wp.peekToken.text ∈ pe.labelsGotoed ∧
        ("goto" ++ c10wp.peekToken.text ++ ";" ++ "\n") ∈ pe.emitter.code) ∧
    (c10wp.curToken.kind = .LABEL → c10wp.peekToken.text ∉ c10wp.labelsDeclared →
      ∃ pe, statement 8 c10wp = .error (.expected .IDENT c10wp.peekToken.kind, pe) ∧
        c10wp.peekToken.text ∈ pe.labelsDeclared ∧
        (c10wp.peekToken.text ++ ":" ++ "\n") ∈ pe.emitter.code) ∧
    (c10wp.curToken.kind = .LABEL → c10wp.peekToken.text ∈ c10wp.labelsDeclared →
      statement 8 c10wp = .error (.labelExists c10wp.peekToken.text, c10wp.nextToken))) :=
  c10_goto_label_mutate_before_syntax_error 7 c10wp (by decide)

end Rizzler

namespace Rizzler

/-- Claim C2: after the statement loop has consumed the entire token
stream, the compiler fails with the undeclared-label semantic error
exactly when some name in the goto-referenced set is absent from the
declared-label set; and the check is not performed at the jump site — a
goto statement over an identifier succeeds and only records the name,
whether or not that label has been declared. -/
theorem c2_deferred_label_validation :
    (∀ fuel p p3,
      statementsUntil fuel .EOF (skipNewlines fuel (prologue p)) = .ok p3 →
      ((∃ l pe, program fuel p = .error (.undeclaredLabel l, pe)) ↔
        ∃ l ∈ p3.labelsGotoed, l ∉ p3.labelsDeclared)) ∧
    (∀ fuel p, p.curToken.kind = .GOTO → p.peekToken.kind = .IDENT →
      (p.rest.headD eofToken).kind = .NEWLINE →
      ∃ p', statement (fuel + 1) p = .ok p' ∧
        p'.labelsGotoed = addStr p.labelsGotoed p.peekToken.text ∧
        p'.labelsDeclared = p.labelsDeclared) := by
  constructor
  · intro fuel p p3 h
    have hprog : program fuel p =
        checkLabels ((p3.emitLine "return 0;").emitLine "\x7d") := by
      simp [program, h]
    rw [hprog]
    constructor
    · rintro ⟨l, pe, herr⟩
      rw [checkLabels] at herr
      split at herr
      next l' hf =>
        have hmem : l' ∈ p3.labelsGotoed := List.mem_of_find?_eq_some hf
        have hpred := List.find?_some hf
        simp only [decide_eq_true_eq] at hpred
        exact ⟨l', hmem, hpred⟩
      next => cases herr
    · rintro ⟨l, hmem, hnd⟩
      rw [checkLabels]
      split
      next l' hf => exact ⟨l', _, rfl⟩
      next hf =>
        rw [List.find?_eq_none] at hf
        have := hf l hmem
        simp only [decide_eq_true_eq] at this
        exact absurd hnd (by simpa using this)
  · intro fuel p hk hid hn
    simp only [List.headD_eq_head?_getD] at hn
    simp [statement, hk, hid, hn, matchTok, nl,
      ParserState.nextToken, ParserState.emitLine, Emitter.emitLine]

/-- Tokens of a program that jumps to the never-declared label foo. -/
def dangtoks : List Token := [tk .GOTO "GOTO", tk .IDENT "foo", tk .NEWLINE "\n"]

/-- The parser state after the statement loop of the dangling-goto program. -/
def c2wp3 : ParserState :=
  { symbols := [], labelsDeclared := [], labelsGotoed := ["foo"],
    curToken := eofToken, peekToken := eofToken, rest := [],
    emitter := { header := ["#include <stdio.h>\n", "int main(void) \x7b\n"],
                 code := ["gotofoo;\n"] } }

/-- Witness for C2 at a concrete input: the program consisting of one goto
to the never-declared label foo. -/
theorem c2_deferred_label_validation_witness :
    (∃ l pe, program 50 (initParser dangtoks) = .error (.undeclaredLabel l, pe)) ↔
      ∃ l ∈ c2wp3.labelsGotoed, l ∉ c2wp3.labelsDeclared :=
  c2_deferred_label_validation.1 50 (initParser dangtoks) c2wp3 rfl

end Rizzler

namespace Rizzler

/-- The header-region declaration line emitted for a variable name (the
text appended by headerLine, trailing newline included). -/
def floatDecl (x : String) : String := "float " ++ x ++ ";" ++ "\n"

/-- The header-declaration invariant: every name in the symbol set has
exactly one float declaration line in the header region, and names outside
the symbol set have none. -/
def symInv (p : ParserState) : Prop :=
  ∀ x, p.emitter.header.count (floatDecl x) = if x ∈ p.symbols then 1 else 0

/-- One parsing step only grows the symbol set and keeps the
header-declaration invariant. -/
def SymGrow (p q : ParserState) : Prop :=
  (∀ x, x ∈ p.symbols → x ∈ q.symbols) ∧ (symInv p → symInv q)

/-- Two states with identical symbol set and header region. -/
def SameSH (p q : ParserState) : Prop :=
  q.symbols = p.symbols ∧ q.emitter.header = p.emitter.header

theorem sameSH_refl (p : ParserState) : SameSH p p := ⟨rfl, rfl⟩

theorem sameSH_trans {p q r : ParserState} (h1 : SameSH p q) (h2 : SameSH q r) :
    SameSH p r := ⟨h2.1.trans h1.1, h2.2.trans h1.2⟩

theorem sameSH_symGrow {p q : ParserState} (h : SameSH p q) : SymGrow p q := by
  obtain ⟨hs, hh⟩ := h
  refine ⟨fun x hx => hs ▸ hx, fun hinv x => ?_⟩
  rw [hh, hs]
  exact hinv x

theorem symGrow_refl (p : ParserState) : SymGrow p p := ⟨fun _ h => h, id⟩

theorem symGrow_trans {p q r : ParserState} (h1 : SymGrow p q) (h2 : SymGrow q r) :
    SymGrow p r := ⟨fun x hx => h2.1 x (h1.1 x hx), fun hinv => h2.2 (h1.2 hinv)⟩

/-- The declaration line determines the name it declares. -/
theorem floatDecl_inj {x y : String} (h : floatDecl x = floatDecl y) : x = y := by
  unfold floatDecl at h
  have hd := congrArg String.data h
  simp only [String.data_append, List.append_assoc] at hd
  exact String.ext (List.append_cancel_right (List.append_cancel_left hd))

/-- Destructor for a successful bind of parser results. -/
theorem bind_ok {x : PRes} {f : ParserState → PRes} {q : ParserState}
    (h : x >>= f = .ok q) : ∃ a, x = .ok a ∧ f a = .ok q := by
  cases x with
  | error e => simp at h
  | ok a => exact ⟨a, rfl, by simpa using h⟩

theorem matchTok_sameSH {p q : ParserState} {k : TokenType}
    (h : matchTok p k = .ok q) : SameSH p q := by
  unfold matchTok at h
  split at h
  · injection h with h'
    subst h'
    exact ⟨rfl, rfl⟩
  · cases h

theorem primary_sameSH {p q : ParserState} (h : primary p = .ok q) : SameSH p q := by
  unfold primary at h
  split at h
  · injection h with h'
    subst h'
    exact ⟨rfl, rfl⟩
  · split at h
    · split at h
      · injection h with h'
        subst h'
        exact ⟨rfl, rfl⟩
      · cases h
    · cases h

theorem unary_sameSH {p q : ParserState} (h : unary p = .ok q) : SameSH p q := by
  unfold unary at h
  split at h
  · exact sameSH_trans (q := (p.emit p.curToken.text).nextToken) ⟨rfl, rfl⟩ (primary_sameSH h)
  · exact primary_sameSH h

theorem termLoop_sameSH : ∀ {fuel : Nat} {p q : ParserState},
    termLoop fuel p = .ok q → SameSH p q := by
  intro fuel
  induction fuel with
  | zero => intro p q h; cases h
  | succ n ih =>
    intro p q h
    unfold termLoop at h
    split at h
    · obtain ⟨a, h1, h2⟩ := bind_ok h
      exact sameSH_trans (sameSH_trans (q := (p.emit p.curToken.text).nextToken) ⟨rfl, rfl⟩ (unary_sameSH h1)) (ih h2)
    · injection h with h'
      subst h'
      exact ⟨rfl, rfl⟩

theorem term_sameSH {fuel : Nat} {p q : ParserState}
    (h : term fuel p = .ok q) : SameSH p q := by
  obtain ⟨a, h1, h2⟩ := bind_ok h
  exact sameSH_trans (unary_sameSH h1) (termLoop_sameSH h2)

theorem expressionLoop_sameSH : ∀ {fuel : Nat} {p q : ParserState},
    expressionLoop fuel p = .ok q → SameSH p q := by
  intro fuel
  induction fuel with
  | zero => intro p q h; cases h
  | succ n ih =>
    intro p q h
    unfold expressionLoop at h
    split at h
    · obtain ⟨a, h1, h2⟩ := bind_ok h
      exact sameSH_trans (sameSH_trans (q := (p.emit p.curToken.text).nextToken) ⟨rfl, rfl⟩ (term_sameSH h1)) (ih h2)
    · injection h with h'
      subst h'
      exact ⟨rfl, rfl⟩

theorem expression_sameSH {fuel : Nat} {p q : ParserState}
    (h : expression fuel p = .ok q) : SameSH p q := by
  obtain ⟨a, h1, h2⟩ := bind_ok h
  exact sameSH_trans (term_sameSH h1) (expressionLoop_sameSH h2)

theorem comparisonLoop_sameSH : ∀ {fuel : Nat} {p q : ParserState},
    comparisonLoop fuel p = .ok q → SameSH p q := by
  intro fuel
  induction fuel with
  | zero => intro p q h; cases h
  | succ n ih =>
    intro p q h
    unfold comparisonLoop at h
    split at h
    · obtain ⟨a, h1, h2⟩ := bind_ok h
      exact sameSH_trans (sameSH_trans (q := (p.emit p.curToken.text).nextToken) ⟨rfl, rfl⟩ (expression_sameSH h1)) (ih h2)
    · injection h with h'
      subst h'
      exact ⟨rfl, rfl⟩

theorem comparison_sameSH {fuel : Nat} {p q : ParserState}
    (h : comparison fuel p = .ok q) : SameSH p q := by
  unfold comparison at h
  obtain ⟨a, h1, h2⟩ := bind_ok h
  have hA := expression_sameSH h1
  split at h2
  · obtain ⟨b, h3, h4⟩ := bind_ok h2
    exact sameSH_trans hA (sameSH_trans (sameSH_trans (q := (a.emit a.curToken.text).nextToken) ⟨rfl, rfl⟩ (expression_sameSH h3))
      (comparisonLoop_sameSH h4))
  · cases h2

theorem skipNewlines_sameSH (fuel : Nat) (p : ParserState) :
    SameSH p (skipNewlines fuel p) := by
  constructor
  · exact skipNewlines_symbols fuel p
  · rw [skipNewlines_emitter]

theorem nl_sameSH {fuel : Nat} {p q : ParserState}
    (h : nl fuel p = .ok q) : SameSH p q := by
  unfold nl at h
  obtain ⟨a, h1, h2⟩ := bind_ok h
  injection h2 with h2'
  subst h2'
  exact sameSH_trans (matchTok_sameSH h1) (skipNewlines_sameSH fuel a)

end Rizzler

namespace Rizzler

/-- Inserting a fresh name into the symbol set together with its header
declaration (the NOCAP and PREACH paths) grows the symbol set and keeps
the header-declaration invariant. -/
theorem symGrow_insert (p : ParserState) (t : String) (ht : t ∉ p.symbols) :
    SymGrow p { p with symbols := p.symbols ++ [t],
                       emitter := p.emitter.headerLine ("float " ++ t ++ ";") } := by
  constructor
  · intro x hx
    exact List.mem_append_left _ hx
  · intro hinv x
    show (p.emitter.header ++ [("float " ++ t ++ ";") ++ "\n"]).count (floatDecl x) =
      if x ∈ p.symbols ++ [t] then 1 else 0
    by_cases hxt : x = t
    · subst hxt
      have h0 : p.emitter.header.count (floatDecl x) = 0 := by
        simpa [ht] using hinv x
      have : ("float " ++ x ++ ";") ++ "\n" = floatDecl x := rfl
      simp [this, List.count_append, List.count_singleton', h0]
    · have hne : ¬ (floatDecl x = ("float " ++ t ++ ";") ++ "\n") := by
        intro hcontra
        exact hxt (floatDecl_inj hcontra)
      have hcnt : (([("float " ++ t ++ ";") ++ "\n"] : List String)).count (floatDecl x) = 0 := by
        simp [List.count_singleton']
        intro hcontra
        exact hne hcontra.symm
      simp [List.count_append, hcnt, hinv x, List.mem_append, hxt]

end Rizzler

namespace Rizzler

/-- Transitivity with the second leg given first, so that the middle state
is pinned before the pure-step equalities are checked. -/
theorem sameSH_trans' {p q r : ParserState} (h2 : SameSH q r)
    (hs : q.symbols = p.symbols) (hh : q.emitter.header = p.emitter.header) :
    SameSH p r := sameSH_trans ⟨hs, hh⟩ h2

/-- Extend a SameSH chain by a final pure step. -/
theorem sameSH_snoc {p q r : ParserState} (h : SameSH p q)
    (hs : r.symbols = q.symbols) (hh : r.emitter.header = q.emitter.header) :
    SameSH p r := sameSH_trans h ⟨hs, hh⟩

/-- Transitivity for SymGrow with the second leg given first. -/
theorem symGrow_trans' {p q r : ParserState} (h2 : SymGrow q r) (h1 : SymGrow p q) :
    SymGrow p r := symGrow_trans h1 h2

/-- Every successful statement (and every successful run of a statement
loop) only grows the symbol set and preserves the header-declaration
invariant. -/
theorem stmt_symGrow : ∀ fuel : Nat,
    (∀ p q, statement fuel p = .ok q → SymGrow p q) ∧
    (∀ stop p q, statementsUntil fuel stop p = .ok q → SymGrow p q) := by
  intro fuel
  induction fuel with
  | zero =>
    constructor
    · intro p q h; cases h
    · intro stop p q h; cases h
  | succ n ih =>
    obtain ⟨ihS, ihU⟩ := ih
    constructor
    · intro p q h
      unfold statement at h
      obtain ⟨pd, hbr, hnl⟩ := bind_ok h
      refine symGrow_trans ?_ (sameSH_symGrow (nl_sameSH hnl))
      split at hbr
      · -- YAP
        split at hbr
        · injection hbr with h'
          subst h'
          exact sameSH_symGrow ⟨rfl, rfl⟩
        · obtain ⟨p2, h1, h2⟩ := bind_ok hbr
          injection h2 with h2'
          subst h2'
          have hE := expression_sameSH h1
          exact sameSH_symGrow (sameSH_snoc (sameSH_trans' hE rfl rfl) rfl rfl)
      · split at hbr
        · -- IF
          obtain ⟨p1, h1, hrest⟩ := bind_ok hbr
          obtain ⟨x, h2, hrest2⟩ := bind_ok hrest
          obtain ⟨p2, h3, hrest3⟩ := bind_ok hrest2
          obtain ⟨p3, h4, hrest4⟩ := bind_ok hrest3
          obtain ⟨p4, h5, h6⟩ := bind_ok hrest4
          injection h6 with h6'
          subst h6'
          have hPP2 : SameSH p p2 :=
            sameSH_trans (sameSH_trans (sameSH_trans' (comparison_sameSH h1) rfl rfl)
              (matchTok_sameSH h2)) (nl_sameSH h3)
          have hG3 : SymGrow p p3 :=
            symGrow_trans' (ihU _ _ _ h4) (sameSH_symGrow (sameSH_snoc hPP2 rfl rfl))
          have hG4 : SymGrow p p4 := symGrow_trans hG3 (sameSH_symGrow (matchTok_sameSH h5))
          exact symGrow_trans hG4 (sameSH_symGrow ⟨rfl, rfl⟩)
        · split at hbr
          · -- COOKING
            obtain ⟨p1, h1, hrest⟩ := bind_ok hbr
            obtain ⟨x, h2, hrest2⟩ := bind_ok hrest
            obtain ⟨p2, h3, hrest3⟩ := bind_ok hrest2
            obtain ⟨p3, h4, hrest4⟩ := bind_ok hrest3
            obtain ⟨p4, h5, h6⟩ := bind_ok hrest4
            injection h6 with h6'
            subst h6'
            have hPP2 : SameSH p p2 :=
              sameSH_trans (sameSH_trans (sameSH_trans' (comparison_sameSH h1) rfl rfl)
                (matchTok_sameSH h2)) (nl_sameSH h3)
            have hG3 : SymGrow p p3 :=
              symGrow_trans' (ihU _ _ _ h4) (sameSH_symGrow (sameSH_snoc hPP2 rfl rfl))
            have hG4 : SymGrow p p4 := symGrow_trans hG3 (sameSH_symGrow (matchTok_sameSH h5))
            exact symGrow_trans hG4 (sameSH_symGrow ⟨rfl, rfl⟩)
          · split at hbr
            · -- LABEL
              split at hbr
              · cases hbr
              · have hM := matchTok_sameSH hbr
                exact sameSH_symGrow (sameSH_trans' hM rfl rfl)
            · split at hbr
              · -- GOTO
                have hM := matchTok_sameSH hbr
                exact sameSH_symGrow (sameSH_trans' hM rfl rfl)
              · split at hbr
                · -- NOCAP
                  by_cases hc : (p.nextToken).curToken.text ∈ (p.nextToken).symbols
                  · rw [if_pos hc] at hbr
                    obtain ⟨p3, h1, hrest⟩ := bind_ok hbr
                    obtain ⟨p4, h2, hrest2⟩ := bind_ok hrest
                    obtain ⟨p5, h3, h4⟩ := bind_ok hrest2
                    injection h4 with h4'
                    subst h4'
                    have hCh : SameSH p p5 :=
                      sameSH_trans (sameSH_trans (sameSH_trans' (matchTok_sameSH h1) rfl rfl)
                        (matchTok_sameSH h2)) (expression_sameSH h3)
                    exact sameSH_symGrow (sameSH_snoc hCh rfl rfl)
                  · rw [if_neg hc] at hbr
                    obtain ⟨p3, h1, hrest⟩ := bind_ok hbr
                    obtain ⟨p4, h2, hrest2⟩ := bind_ok hrest
                    obtain ⟨p5, h3, h4⟩ := bind_ok hrest2
                    injection h4 with h4'
                    subst h4'
                    have hIns : SymGrow p _ :=
                      symGrow_trans' (symGrow_insert p.nextToken p.nextToken.curToken.text hc)
                        (sameSH_symGrow ⟨rfl, rfl⟩)
                    have hCh := sameSH_trans (sameSH_trans (sameSH_trans' (matchTok_sameSH h1) rfl rfl)
                        (matchTok_sameSH h2)) (expression_sameSH h3)
                    exact symGrow_trans hIns (sameSH_symGrow (sameSH_snoc hCh rfl rfl))
                · split at hbr
                  · -- PREACH
                    by_cases hc : (p.nextToken).curToken.text ∈ (p.nextToken).symbols
                    · rw [if_pos hc] at hbr
                      have hM := matchTok_sameSH hbr
                      exact sameSH_symGrow (sameSH_trans' hM rfl rfl)
                    · rw [if_neg hc] at hbr
                      have hM := matchTok_sameSH hbr
                      have hIns : SymGrow p _ :=
                        symGrow_trans' (symGrow_insert p.nextToken p.nextToken.curToken.text hc)
                          (sameSH_symGrow ⟨rfl, rfl⟩)
                      exact symGrow_trans hIns (sameSH_symGrow (sameSH_trans' hM rfl rfl))
                  · -- invalid statement
                    cases hbr
    · intro stop p q h
      unfold statementsUntil at h
      split at h
      · injection h with h'
        subst h'
        exact symGrow_refl _
      · obtain ⟨a, h1, h2⟩ := bind_ok h
        exact symGrow_trans (ihS _ _ h1) (ihU _ _ _ h2)

end Rizzler

namespace Rizzler

/-- Claim C9: the symbol set only grows under parser operations (a fresh
parser starts with the header-declaration invariant, the prologue
preserves it, and every successful statement — hence every sequence of
statements — keeps every existing symbol and preserves the invariant that
each symbol has exactly one header float declaration, emitted at the
first assignment or input naming it, so a repeated assignment or input of
the same name adds no further declaration). -/
theorem c9_symbols_monotone_and_declared_once :
    (∀ toks, symInv (initParser toks)) ∧
    (∀ p, symInv p → symInv (prologue p)) ∧
    (∀ fuel p p', statement fuel p = .ok p' →
      (∀ x, x ∈ p.symbols → x ∈ p'.symbols) ∧ (symInv p → symInv p')) := by
  refine ⟨?_, ?_, ?_⟩
  · intro toks x
    simp [initParser, symInv]
  · intro p hinv x
    have h1 : ¬ (floatDecl x = "#include <stdio.h>\n") := by
      intro h
      have hd := congrArg String.data h
      simp [floatDecl, String.data_append] at hd
    have h2 : ¬ (floatDecl x = "int main(void) \x7b\n") := by
      intro h
      have hd := congrArg String.data h
      simp [floatDecl, String.data_append] at hd
    have := hinv x
    simp only [prologue, ParserState.headerLine, Emitter.headerLine]
    simp [List.count_append, List.count_cons, List.count_nil, h1, h2, this]
  · intro fuel p p' h
    exact (stmt_symGrow fuel).1 p p' h

/-- State at an assignment statement introducing the fresh variable v. -/
def c9wp : ParserState :=
  initParser [tk .NOCAP "NOCAP", tk .IDENT "v", tk .EQ "=", tk .NUMBER "1", tk .NEWLINE "\n"]

/-- The state after parsing that assignment statement. -/
def c9wq : ParserState :=
  { symbols := ["v"], labelsDeclared := [], labelsGotoed := [],
    curToken := eofToken, peekToken := eofToken, rest := [],
    emitter := { header := ["float v;\n"], code := ["v = ", "1", ";\n"] } }

/-- Witness for C9 at a concrete input: the assignment statement that
introduces v. -/
theorem c9_symbols_monotone_witness :
    (∀ x, x ∈ c9wp.symbols → x ∈ c9wq.symbols) ∧ (symInv c9wp → symInv c9wq) :=
  c9_symbols_monotone_and_declared_once.2.2 10 c9wp c9wq rfl

end Rizzler
